import Mathlib

/-!
Verification development for the onfra tracking pipeline.

Shallow embedding of the vision core: the per-template tracking state
machine of src/vision/tracker_pipeline.py (class TrackerPipeline), the
coordinator-owned tracker of src/vision/multi_tracker.py (classes
SingleTracker and MultiTrackerPipeline), recipe creation of
src/vision/recipe.py (class RecipeManager) and the bounded drop-oldest
frame queues of src/vision/tracker_pipeline.py and src/vision/camera.py.

External OpenCV routines (ORB feature detection, descriptor matching,
homography fitting) are treated as oracles: the tracking step functions
are parametrized by the outcome that the matching routine would produce
for the given frame, so every claim about the state machine, smoothing,
queueing and aggregation logic is settled against the exact control flow
of the source. Floating point arithmetic of the smoothing law is
modelled exactly over the rationals, with the Python int conversion
modelled as truncation toward zero.
-/

/-- The five tracking states, mirroring the Python enum TrackingState in
src/vision/tracker_pipeline.py (values IDLE, SEARCH, TRACK, LOST,
REACQUIRE). -/
inductive TrackingState where
  | IDLE
  | SEARCH
  | TRACK
  | LOST
  | REACQUIRE
deriving DecidableEq, Repr

/-- An axis-aligned bounding box (x, y, w, h), integer pixel values as
produced by cv2.boundingRect and the int conversions in the source. -/
structure BBox where
  x : ℤ
  y : ℤ
  w : ℤ
  h : ℤ
deriving DecidableEq, Repr

/-- Transformed template corners: a list of integer 2D points, as stored
in the corners entry of a match result. -/
def Corners : Type := List (ℤ × ℤ)

instance : DecidableEq Corners := by unfold Corners; infer_instance

/-- A detected keypoint position (float coordinates modelled as rationals). -/
def KP : Type := ℚ × ℚ

instance : DecidableEq KP := by unfold KP; infer_instance

/-- A binary descriptor matrix: one row of bytes per keypoint. -/
def DescMat : Type := List (List ℕ)

instance : DecidableEq DescMat := by unfold DescMat; infer_instance

/-- An opaque camera frame or template image buffer with its dimensions
(shape[1] is the width, shape[0] the height). -/
structure Image where
  width : ℤ
  height : ℤ
  data : ℕ
deriving DecidableEq, Repr

/-- A BGR color triple from the TRACKING_COLORS palette of
src/vision/multi_tracker.py. -/
def Color : Type := ℕ × ℕ × ℕ

instance : DecidableEq Color := by unfold Color; infer_instance

/-- The successful outcome of an ORB-plus-homography matching call: the
dictionary returned by _match_orb_with_homography or _match_orb_simple,
with keys bbox, corners (None on the simple fallback path), score,
matches and inliers. A failed matching call is the value none. -/
structure MatchSuccess where
  bbox : BBox
  corners : Option Corners
  score : ℚ
  match_count : ℕ
  inliers : ℕ
deriving DecidableEq

/-- The per-frame result dictionary emitted by
TrackerPipeline._process_frame: keys state, bbox, corners, score,
matches. -/
structure TrackResult where
  state : TrackingState
  bbox : Option BBox
  corners : Option Corners
  score : ℚ
  match_count : ℕ
deriving DecidableEq

/-- The fixed failure threshold: self.max_fail_count = 5 in both
TrackerPipeline and SingleTracker. -/
def maxFailCount : ℕ := 5

/-- Python int conversion on a rational value: truncation toward zero. -/
def ratTrunc (q : ℚ) : ℤ := if q < 0 then -(Int.floor (-q)) else Int.floor q

/-- Rounding of a rational to the nearest integer multiple of ulp,
ties to the even multiple: the rounding step of IEEE-754 binary
round-to-nearest-even arithmetic. -/
def roundToMultiple (q ulp : ℚ) : ℚ :=
  let t := q / ulp
  let f : ℤ := ⌊t⌋
  let r := t - f
  if r < 1 / 2 then f * ulp
  else if 1 / 2 < r then (f + 1) * ulp
  else if f % 2 = 0 then f * ulp else (f + 1) * ulp

/-- Rounding of an exact rational value to the nearest IEEE-754 double
(53-bit significand, round to nearest, ties to even), covering the
normal finite range: the unit in the last place of a nonzero value q is
2 to the power (floor of log2 of the magnitude, minus 52). Overflow and
subnormal underflow do not arise at the pixel-scale magnitudes of this
pipeline and are not modelled. -/
def roundDouble (q : ℚ) : ℚ :=
  if q = 0 then 0
  else roundToMultiple q (2 ^ (Int.log 2 |q| - 52))

/-- The IEEE double denoted by the Python literal 0.6 (the value of
alpha in _smooth_bbox): the double nearest 3/5. -/
def alphaDouble : ℚ := roundDouble (3 / 5)

/-- The IEEE double computed by the Python expression 1 - alpha in
_smooth_bbox: the rounded double subtraction. -/
def oneMinusAlphaDouble : ℚ := roundDouble (1 - alphaDouble)

/-- One smoothed coordinate: the source expression
int(alpha * new + (1 - alpha) * prev) evaluated in IEEE double
arithmetic, one rounding per operation, then truncated toward zero by
the int conversion. The integer operands convert to double exactly
(bounding-box coordinates are far below 2 to the power 53). -/
def smoothCoord (n p : ℤ) : ℤ :=
  ratTrunc (roundDouble
    (roundDouble (alphaDouble * (n : ℚ)) +
     roundDouble (oneMinusAlphaDouble * (p : ℚ))))

/-- The common _smooth_bbox method of TrackerPipeline (lines 245 to 261
of src/vision/tracker_pipeline.py) and SingleTracker (lines 189 to 205
of src/vision/multi_tracker.py); the two method bodies are textually
identical. Input: the previous smoothed bbox (self.prev_bbox) and the
new raw bbox. Output: the returned bbox together with the updated
prev_bbox field. When prev_bbox is None the new bbox seeds prev_bbox
and is returned unsmoothed. -/
def smooth_bbox (prev : Option BBox) (nb : BBox) : BBox × Option BBox :=
  match prev with
  | none => (nb, some nb)
  | some p =>
      let sm : BBox := ⟨smoothCoord nb.x p.x, smoothCoord nb.y p.y,
                        smoothCoord nb.w p.w, smoothCoord nb.h p.h⟩
      (sm, some sm)

namespace TrackerPipeline

/-- The mutable tracking fields of class TrackerPipeline
(src/vision/tracker_pipeline.py): the state enum, the extracted template
features (template_keypoints, template_descriptors, template_size), the
stored bbox and corners, the failure counter and the previous smoothed
bbox used by _smooth_bbox. -/
structure State where
  state : TrackingState
  template_keypoints : Option (List KP)
  template_descriptors : Option DescMat
  template_size : ℤ × ℤ
  current_bbox : Option BBox
  current_corners : Option Corners
  fail_count : ℕ
  prev_bbox : Option BBox
deriving DecidableEq

/-- The template-descriptor guard at the top of
TrackerPipeline._match_orb_with_homography (line 125): when
self.template_descriptors is None the matching call returns None
regardless of the frame; otherwise the outcome m of the ORB matching
oracle is returned. -/
def effective_match (s : State) (m : Option MatchSuccess) : Option MatchSuccess :=
  match s.template_descriptors with
  | none => none
  | some _ => m

/-- TrackerPipeline._process_frame (lines 263 to 318 of
src/vision/tracker_pipeline.py), parametrized by the outcome m that
_match_orb_with_homography would produce on this frame when template
descriptors are present. Returns the updated tracker state together
with the emitted result dictionary. IDLE does nothing; SEARCH,
REACQUIRE and TRACK run the match branch; LOST auto-advances to
REACQUIRE. The final assignment result state = self.state.value is
reflected in the state field of each returned result. -/
def process_frame (s : State) (m : Option MatchSuccess) : State × TrackResult :=
  let r0 : TrackResult := ⟨s.state, none, none, 0, 0⟩
  if s.state = .IDLE then (s, r0)
  else if s.state = .SEARCH ∨ s.state = .REACQUIRE ∨ s.state = .TRACK then
      match effective_match s m with
      | some mr =>
          let sp := smooth_bbox s.prev_bbox mr.bbox
          let st1 := if s.state ≠ .TRACK then TrackingState.TRACK else s.state
          ({ s with state := st1, current_bbox := some sp.1,
                    current_corners := mr.corners, fail_count := 0,
                    prev_bbox := sp.2 },
           { r0 with state := st1, bbox := some sp.1, corners := mr.corners,
                     score := mr.score, match_count := mr.match_count })
      | none =>
          let fc := s.fail_count + 1
          if s.current_bbox.isSome ∧ fc < maxFailCount then
            ({ s with fail_count := fc },
             { r0 with bbox := s.current_bbox, corners := s.current_corners,
                       score := 3 / 10 })
          else if maxFailCount ≤ fc then
            ({ s with state := .LOST, current_bbox := none,
                      prev_bbox := none, fail_count := fc },
             { r0 with state := .LOST })
          else
            ({ s with fail_count := fc }, r0)
  else if s.state = .LOST then
    ({ s with state := .REACQUIRE }, { r0 with state := .REACQUIRE })
  else (s, r0)

/-- TrackerPipeline.force_reacquire (lines 96 to 103 of
src/vision/tracker_pipeline.py): sets the state to REACQUIRE, clears
current_bbox and prev_bbox and zeroes fail_count. The source does not
touch current_corners nor any template field. -/
def force_reacquire (s : State) : State :=
  { s with state := .REACQUIRE, current_bbox := none,
           prev_bbox := none, fail_count := 0 }

end TrackerPipeline

namespace SingleTracker

/-- The per-tracker result dictionary of SingleTracker.process_frame:
keys name, color, state, bbox, corners, score, matches. -/
structure Result where
  name : String
  color : Color
  state : TrackingState
  bbox : Option BBox
  corners : Option Corners
  score : ℚ
  match_count : ℕ
deriving DecidableEq

/-- The mutable fields of class SingleTracker
(src/vision/multi_tracker.py): the recipe name and display color, the
state enum, the extracted template features, the stored bbox and
corners, the failure counter and the previous smoothed bbox. -/
structure State where
  name : String
  color : Color
  state : TrackingState
  template_keypoints : Option (List KP)
  template_descriptors : Option DescMat
  template_size : ℤ × ℤ
  current_bbox : Option BBox
  current_corners : Option Corners
  fail_count : ℕ
  prev_bbox : Option BBox
deriving DecidableEq

/-- SingleTracker.process_frame (lines 78 to 123 of
src/vision/multi_tracker.py), parametrized by the outcome m that
SingleTracker._match_orb_with_homography would produce on this frame.
When template_descriptors is None the method returns the freshly
initialized result early, leaving every field untouched. Otherwise the
match branch runs with no inspection of the current state: there is no
IDLE or LOST special case and no LOST auto-advance in this class. -/
def process_frame (t : State) (m : Option MatchSuccess) : State × Result :=
  let r0 : Result := ⟨t.name, t.color, t.state, none, none, 0, 0⟩
  match t.template_descriptors with
  | none => (t, r0)
  | some _ =>
      match m with
      | some mr =>
          let sp := smooth_bbox t.prev_bbox mr.bbox
          let st1 := if t.state ≠ .TRACK then TrackingState.TRACK else t.state
          ({ t with state := st1, current_bbox := some sp.1,
                    current_corners := mr.corners, fail_count := 0,
                    prev_bbox := sp.2 },
           { r0 with state := st1, bbox := some sp.1, corners := mr.corners,
                     score := mr.score, match_count := mr.match_count })
      | none =>
          let fc := t.fail_count + 1
          if t.current_bbox.isSome ∧ fc < maxFailCount then
            ({ t with fail_count := fc },
             { r0 with bbox := t.current_bbox, corners := t.current_corners,
                       score := 3 / 10 })
          else if maxFailCount ≤ fc then
            ({ t with state := .LOST, current_bbox := none,
                      prev_bbox := none, fail_count := fc },
             { r0 with state := .LOST })
          else
            ({ t with fail_count := fc }, r0)

/-- SingleTracker.reset (lines 207 to 213 of
src/vision/multi_tracker.py): sets the state to SEARCH and clears
current_bbox, current_corners, prev_bbox and fail_count. Template
fields are untouched. -/
def reset (t : State) : State :=
  { t with state := .SEARCH, current_bbox := none, current_corners := none,
           prev_bbox := none, fail_count := 0 }

end SingleTracker

/-- A bounded FIFO queue in the sense of the Python queue module: a
maxsize bound and the buffered items, oldest first. Models the
frame_queue fields of TrackerPipeline, MultiTrackerPipeline (both
Queue(maxsize=2)) and CameraThread (Queue(maxsize=queue_size)). -/
structure FrameQueue (α : Type) where
  maxsize : ℕ
  items : List α
deriving DecidableEq

namespace FrameQueue

/-- Queue.full of the Python standard library: true when 0 < maxsize
and at least maxsize items are buffered. -/
def full (q : FrameQueue α) : Prop := 0 < q.maxsize ∧ q.maxsize ≤ q.items.length

instance (q : FrameQueue α) : Decidable q.full := by unfold full; infer_instance

/-- Queue.put with block=False: raises Full (modelled as none) when the
queue is full, otherwise appends the item at the back. -/
def put_nowait (q : FrameQueue α) (f : α) : Option (FrameQueue α) :=
  if q.full then none else some { q with items := q.items ++ [f] }

/-- Queue.get_nowait: raises Empty (modelled as none) when no item is
buffered, otherwise removes and returns the oldest item. -/
def get_nowait (q : FrameQueue α) : Option (α × FrameQueue α) :=
  match q.items with
  | [] => none
  | x :: xs => some (x, { q with items := xs })

end FrameQueue

namespace TrackerPipeline

/-- TrackerPipeline.put_frame (lines 105 to 116 of
src/vision/tracker_pipeline.py), shared verbatim with
MultiTrackerPipeline.put_frame (lines 255 to 266 of
src/vision/multi_tracker.py): if the queue is full, drop the oldest
buffered frame (ignoring Empty), then put the new frame without
blocking; any exception of the final put is caught and the frame is
silently dropped. -/
def put_frame (q : FrameQueue α) (f : α) : FrameQueue α :=
  let q1 := if q.full then ((q.get_nowait).map Prod.snd).getD q else q
  (q1.put_nowait f).getD q1

end TrackerPipeline

namespace CameraThread

/-- The enqueue step of the CameraThread.run acquisition loop (lines
202 to 211 of src/vision/camera.py): try a non-blocking put; on Full,
remove the oldest frame and retry the put once, swallowing any
exception of the retry. -/
def run_enqueue (q : FrameQueue α) (f : α) : FrameQueue α :=
  match q.put_nowait f with
  | some q2 => q2
  | none =>
      match q.get_nowait with
      | none => q
      | some (_, q1) => (q1.put_nowait f).getD q1

end CameraThread

/-- A template recipe: the dataclass Recipe of src/vision/recipe.py.
The roi field is the stored region tuple (None models a missing or
empty region, over which _setup_template branches by truthiness);
template_img, keypoints and descriptors are the runtime payload fields,
absent when not loaded. -/
structure Recipe where
  name : String
  roi : Option (ℤ × ℤ × ℤ × ℤ)
  created_at : String
  notes : String
  keypoint_count : ℕ
  template_img : Option Image
  keypoints : Option (List KP)
  descriptors : Option DescMat
deriving DecidableEq

namespace RecipeManager

/-- RecipeManager.create_recipe (lines 52 to 96 of
src/vision/recipe.py), parametrized by the ORB detection oracle
orb_detect giving the keypoints and optional descriptor matrix that
cv2 detectAndCompute returns on the (grayscale) region image, and by
the creation timestamp. Returns None when descriptors are None or
fewer than 10 keypoints were detected; otherwise builds the Recipe
with keypoint_count equal to the number of detected keypoints. -/
def create_recipe (orb_detect : Image → List KP × Option DescMat)
    (name : String) (roi_img : Image) (roi : ℤ × ℤ × ℤ × ℤ)
    (notes : String) (created_at : String) : Option Recipe :=
  let kd := orb_detect roi_img
  match kd.2 with
  | none => none
  | some d =>
      if kd.1.length < 10 then none
      else
        some ⟨name, some roi, created_at, notes, kd.1.length,
              some roi_img, some kd.1, some d⟩

end RecipeManager

namespace SingleTracker

/-- SingleTracker._setup_template (lines 67 to 76 of
src/vision/multi_tracker.py), parametrized by the ORB detection oracle:
when the recipe has a template image, extract keypoints and descriptors
from it and take the template size from the image shape; otherwise use
the stored descriptors, with the size taken from the roi width and
height when a roi is present (else it stays (0, 0)). Returns the
template_keypoints, template_descriptors and template_size fields. -/
def setup_template (orb_detect : Image → List KP × Option DescMat)
    (rc : Recipe) : Option (List KP) × Option DescMat × (ℤ × ℤ) :=
  match rc.template_img with
  | some img =>
      let kd := orb_detect img
      (some kd.1, kd.2, (img.width, img.height))
  | none =>
      match rc.roi with
      | some r => (none, rc.descriptors, (r.2.2.1, r.2.2.2))
      | none => (none, rc.descriptors, (0, 0))

/-- The SingleTracker constructor (lines 38 to 65 of
src/vision/multi_tracker.py): stores the recipe name and color, starts
in SEARCH with empty tracking fields and zero fail counter, and runs
_setup_template. -/
def mk (orb_detect : Image → List KP × Option DescMat)
    (rc : Recipe) (color : Color) : State :=
  let t := setup_template orb_detect rc
  ⟨rc.name, color, .SEARCH, t.1, t.2.1, t.2.2, none, none, 0, none⟩

end SingleTracker

/-- The TRACKING_COLORS palette of src/vision/multi_tracker.py
(lines 21 to 32), BGR triples. -/
def TRACKING_COLORS : List Color :=
  [(0, 255, 0), (255, 0, 0), (0, 0, 255), (255, 255, 0), (255, 0, 255),
   (0, 165, 255), (128, 0, 128), (0, 255, 255), (255, 128, 0), (128, 255, 0)]

namespace MultiTrackerPipeline

/-- The color assignment TRACKING_COLORS[i % len(TRACKING_COLORS)] for
the tracker built from the i-th requested name. -/
def tracking_color (i : ℕ) : Color :=
  TRACKING_COLORS.getD (i % TRACKING_COLORS.length) (0, 0, 0)

/-- The loop body of MultiTrackerPipeline.set_recipes: for each
enumerated name, resolve it through RecipeManager.load_recipe
(modelled by the resolver oracle) and append a SingleTracker with the
color of the enumeration index when the recipe resolves; skip the name
otherwise. The index advances on skipped names too, exactly as the
Python enumerate does. -/
def set_recipes_from (orb_detect : Image → List KP × Option DescMat)
    (resolver : String → Option Recipe) :
    ℕ → List String → List SingleTracker.State
  | _, [] => []
  | i, nm :: rest =>
      match resolver nm with
      | some rc =>
          SingleTracker.mk orb_detect rc (tracking_color i) ::
            set_recipes_from orb_detect resolver (i + 1) rest
      | none => set_recipes_from orb_detect resolver (i + 1) rest

/-- MultiTrackerPipeline.set_recipes (lines 237 to 249 of
src/vision/multi_tracker.py): clears the tracker list and rebuilds it
from the requested names, starting the enumeration at index 0. -/
def set_recipes (orb_detect : Image → List KP × Option DescMat)
    (resolver : String → Option Recipe) (names : List String) :
    List SingleTracker.State :=
  set_recipes_from orb_detect resolver 0 names

/-- MultiTrackerPipeline._process_frame (lines 274 to 282 of
src/vision/multi_tracker.py), parametrized by the matching oracle
giving, for the frame and a tracker, the outcome of that tracker's
_match_orb_with_homography call. Each owned tracker processes the same
frame in registration order; the frame is then emitted together with
the complete result list as one event. Returns the updated tracker
list and the emitted (frame, results) pair. -/
def process_frame
    (oracle : Image → SingleTracker.State → Option MatchSuccess)
    (ts : List SingleTracker.State) (frame : Image) :
    List SingleTracker.State × Image × List SingleTracker.Result :=
  let steps := ts.map fun t => SingleTracker.process_frame t (oracle frame t)
  (steps.map Prod.fst, frame, steps.map Prod.snd)

/-- MultiTrackerPipeline.force_reacquire (lines 268 to 272 of
src/vision/multi_tracker.py): calls reset on every owned tracker. -/
def force_reacquire (ts : List SingleTracker.State) :
    List SingleTracker.State :=
  ts.map SingleTracker.reset

end MultiTrackerPipeline

/-- Helper: the descriptor guard maps a failed matching outcome to a
failed matching outcome, whatever the template descriptors are. -/
lemma effective_match_none (s : TrackerPipeline.State) :
    TrackerPipeline.effective_match s none = none := by
  unfold TrackerPipeline.effective_match
  cases s.template_descriptors <;> rfl

/-- Helper: the floor of the base-2 logarithm of a positive rational
is determined by exhibiting its power-of-two bracketing. -/
lemma log2_eq_of_bounds {r : ℚ} {e : ℤ} (hr : 0 < r)
    (h1 : (2 : ℚ) ^ e ≤ r) (h2 : r < 2 ^ (e + 1)) : Int.log 2 r = e := by
  have hle : e ≤ Int.log 2 r :=
    (Int.zpow_le_iff_le_log (b := 2) (by norm_num) hr).mp
      (by exact_mod_cast h1)
  have hlt : Int.log 2 r < e + 1 :=
    (Int.lt_zpow_iff_log_lt (b := 2) (by norm_num) hr).mp
      (by exact_mod_cast h2)
  omega

/-- Helper: evaluation rule for roundDouble on a positive value whose
binade is exhibited explicitly. -/
lemma roundDouble_eval {q out : ℚ} {e : ℤ} (hq : 0 < q)
    (h1 : (2 : ℚ) ^ e ≤ q) (h2 : q < 2 ^ (e + 1))
    (hr : roundToMultiple q (2 ^ (e - 52)) = out) : roundDouble q = out := by
  rw [roundDouble, if_neg (ne_of_gt hq), abs_of_pos hq,
    log2_eq_of_bounds hq h1 h2, hr]

/-- Helper: zero rounds to zero. -/
lemma roundDouble_zero : roundDouble 0 = 0 := by simp [roundDouble]

/-- Helper: the double denoted by the literal 0.6. -/
lemma alphaDouble_eq : alphaDouble = 5404319552844595 / 2 ^ 53 := by
  refine roundDouble_eval (e := -1) (by norm_num) (by norm_num)
    (by norm_num) ?_
  norm_num [roundToMultiple]

/-- Helper: the double computed by 1 - 0.6; the subtraction is exact
and yields the double denoted by 0.4. -/
lemma oneMinusAlphaDouble_eq :
    oneMinusAlphaDouble = 3602879701896397 / 2 ^ 53 := by
  unfold oneMinusAlphaDouble
  rw [alphaDouble_eq]
  refine roundDouble_eval (e := -2) (by norm_num) (by norm_num)
    (by norm_num) ?_
  norm_num [roundToMultiple]

/-- Helper: the double smoothing at new 57 and previous 7 emits 36:
0.6 times 57 rounds down within its binade, the rounded sum falls just
below 37, and the int conversion truncates to 36, one below the exact
alpha = 0.6 value of 37. -/
lemma smoothCoord_57_7 : smoothCoord 57 7 = 36 := by
  have ha : roundDouble ((5404319552844595 / 2 ^ 53 : ℚ) * 57) =
      4813222101752217 / 2 ^ 47 := by
    refine roundDouble_eval (e := 5) (by norm_num) (by norm_num)
      (by norm_num) ?_
    norm_num [roundToMultiple]
  have hb : roundDouble ((3602879701896397 / 2 ^ 53 : ℚ) * 7) =
      6305039478318695 / 2 ^ 51 := by
    refine roundDouble_eval (e := 1) (by norm_num) (by norm_num)
      (by norm_num) ?_
    norm_num [roundToMultiple]
  have hs : roundDouble ((4813222101752217 / 2 ^ 47 : ℚ) +
      6305039478318695 / 2 ^ 51) = 5207287069147135 / 2 ^ 47 := by
    refine roundDouble_eval (e := 5) (by norm_num) (by norm_num)
      (by norm_num) ?_
    norm_num [roundToMultiple]
  unfold smoothCoord
  rw [alphaDouble_eq, oneMinusAlphaDouble_eq]
  push_cast
  rw [ha, hb, hs]
  norm_num [ratTrunc]

/-- Helper: the double smoothing at new 50 and previous 0 emits
exactly 30. -/
lemma smoothCoord_50_0 : smoothCoord 50 0 = 30 := by
  have ha : roundDouble ((5404319552844595 / 2 ^ 53 : ℚ) * 50) = 30 := by
    refine roundDouble_eval (e := 4) (by norm_num) (by norm_num)
      (by norm_num) ?_
    norm_num [roundToMultiple]
  have hs : roundDouble ((30 : ℚ) + 0) = 30 := by
    refine roundDouble_eval (e := 4) (by norm_num) (by norm_num)
      (by norm_num) ?_
    norm_num [roundToMultiple]
  unfold smoothCoord
  rw [alphaDouble_eq, oneMinusAlphaDouble_eq]
  push_cast
  rw [mul_zero, roundDouble_zero, ha, hs]
  norm_num [ratTrunc]

/-- Helper: the double smoothing at new 0 and previous 0 emits 0. -/
lemma smoothCoord_0_0 : smoothCoord 0 0 = 0 := by
  unfold smoothCoord
  push_cast
  rw [mul_zero, mul_zero, roundDouble_zero, add_zero, roundDouble_zero]
  norm_num [ratTrunc]

/-- Helper: the double smoothing at new 100 and previous 100 emits
exactly 100. -/
lemma smoothCoord_100_100 : smoothCoord 100 100 = 100 := by
  have ha : roundDouble ((5404319552844595 / 2 ^ 53 : ℚ) * 100) = 60 := by
    refine roundDouble_eval (e := 5) (by norm_num) (by norm_num)
      (by norm_num) ?_
    norm_num [roundToMultiple]
  have hb : roundDouble ((3602879701896397 / 2 ^ 53 : ℚ) * 100) = 40 := by
    refine roundDouble_eval (e := 5) (by norm_num) (by norm_num)
      (by norm_num) ?_
    norm_num [roundToMultiple]
  have hs : roundDouble ((60 : ℚ) + 40) = 100 := by
    refine roundDouble_eval (e := 6) (by norm_num) (by norm_num)
      (by norm_num) ?_
    norm_num [roundToMultiple]
  unfold smoothCoord
  rw [alphaDouble_eq, oneMinusAlphaDouble_eq]
  push_cast
  rw [ha, hb, hs]
  norm_num [ratTrunc]

/-- Counterexample to C4: at the reachable input previous bbox
(7,7,7,7) with raw match bbox (57,57,57,57) the program emits 36 per
coordinate (double rounding loses one unit before truncation), while
the exact alpha = 0.6 exponential smoothing gives exactly 37; the
emitted bounding box is therefore not the per-coordinate alpha = 0.6
smoothing the claim states. -/
theorem claim4_counterexample :
    (TrackerPipeline.process_frame
      (⟨.TRACK, none, some [[0]], (0, 0), some ⟨7, 7, 7, 7⟩, none, 0,
        some ⟨7, 7, 7, 7⟩⟩ : TrackerPipeline.State)
      (some ⟨⟨57, 57, 57, 57⟩, none, 1, 10, 8⟩)).2.bbox =
      some ⟨36, 36, 36, 36⟩ ∧
    (6 / 10 : ℚ) * 57 + (1 - 6 / 10) * 7 = 37 ∧
    some (⟨36, 36, 36, 36⟩ : BBox) ≠ some (⟨37, 37, 37, 37⟩ : BBox) := by
  refine ⟨?_, by norm_num, by decide⟩
  simp [TrackerPipeline.process_frame, TrackerPipeline.effective_match,
    smooth_bbox, smoothCoord_57_7]

/-- C4 as amended: on a successful match in an active state, the
emitted bounding box is, per coordinate, the IEEE-double evaluation of
int(0.6 * new + (1 - 0.6) * prev) that the source actually computes --
which can land one unit below the exact alpha = 0.6 exponential
smoothing value at reachable inputs -- corners are passed through
unsmoothed, a first match after a reset seeds the previous bbox
directly with no smoothing, and the concrete spec instance holds:
previous bbox (0,0,100,100) with raw bbox (50,0,100,100) yields
exactly (30,0,100,100). -/
theorem claim4_smoothing (s : TrackerPipeline.State) (mr : MatchSuccess)
    (h1 : s.state = .SEARCH ∨ s.state = .TRACK ∨ s.state = .REACQUIRE)
    (h2 : s.template_descriptors.isSome) :
    (∀ p, s.prev_bbox = some p →
      (TrackerPipeline.process_frame s (some mr)).2.bbox =
        some ⟨ratTrunc (roundDouble
                (roundDouble (alphaDouble * (mr.bbox.x : ℚ)) +
                 roundDouble (oneMinusAlphaDouble * (p.x : ℚ)))),
              ratTrunc (roundDouble
                (roundDouble (alphaDouble * (mr.bbox.y : ℚ)) +
                 roundDouble (oneMinusAlphaDouble * (p.y : ℚ)))),
              ratTrunc (roundDouble
                (roundDouble (alphaDouble * (mr.bbox.w : ℚ)) +
                 roundDouble (oneMinusAlphaDouble * (p.w : ℚ)))),
              ratTrunc (roundDouble
                (roundDouble (alphaDouble * (mr.bbox.h : ℚ)) +
                 roundDouble (oneMinusAlphaDouble * (p.h : ℚ))))⟩) ∧
    (s.prev_bbox = none →
      (TrackerPipeline.process_frame s (some mr)).2.bbox = some mr.bbox ∧
      (TrackerPipeline.process_frame s (some mr)).1.prev_bbox =
        some mr.bbox) ∧
    (TrackerPipeline.process_frame s (some mr)).2.corners = mr.corners ∧
    (TrackerPipeline.process_frame
        (⟨.TRACK, none, some [[0]], (0, 0), some ⟨0, 0, 100, 100⟩, none, 0,
          some ⟨0, 0, 100, 100⟩⟩ : TrackerPipeline.State)
        (some ⟨⟨50, 0, 100, 100⟩, none, 1, 10, 8⟩)).2.bbox =
      some ⟨30, 0, 100, 100⟩ := by
  obtain ⟨st, tk, td, sz, cb, cc, fc, pb⟩ := s
  obtain ⟨d, hd⟩ := Option.isSome_iff_exists.mp h2
  dsimp only at h1 hd ⊢
  subst hd
  refine ⟨?_, ?_, ?_, ?_⟩
  · intro p hp
    subst hp
    rcases h1 with h | h | h <;> subst h <;>
      simp [TrackerPipeline.process_frame, TrackerPipeline.effective_match,
        smooth_bbox, smoothCoord]
  · intro hp
    subst hp
    rcases h1 with h | h | h <;> subst h <;>
      simp [TrackerPipeline.process_frame, TrackerPipeline.effective_match,
        smooth_bbox]
  · rcases h1 with h | h | h <;> subst h <;>
      simp [TrackerPipeline.process_frame, TrackerPipeline.effective_match,
        smooth_bbox]
  · simp [TrackerPipeline.process_frame, TrackerPipeline.effective_match,
      smooth_bbox, smoothCoord_50_0, smoothCoord_0_0, smoothCoord_100_100]

/-- Witness for the amended C4 at a concrete state: active state TRACK,
descriptors present, previous bbox (0,0,100,100), raw match bbox
(50,0,100,100). -/
theorem claim4_smoothing_witness :
    (∀ p, (some (⟨0, 0, 100, 100⟩ : BBox) = some p) →
      (TrackerPipeline.process_frame
        (⟨.TRACK, none, some [[0]], (0, 0), some ⟨0, 0, 100, 100⟩, none, 0,
          some ⟨0, 0, 100, 100⟩⟩ : TrackerPipeline.State)
        (some ⟨⟨50, 0, 100, 100⟩, none, 1, 10, 8⟩)).2.bbox =
        some ⟨ratTrunc (roundDouble
                (roundDouble (alphaDouble * ((50 : ℤ) : ℚ)) +
                 roundDouble (oneMinusAlphaDouble * (p.x : ℚ)))),
              ratTrunc (roundDouble
                (roundDouble (alphaDouble * ((0 : ℤ) : ℚ)) +
                 roundDouble (oneMinusAlphaDouble * (p.y : ℚ)))),
              ratTrunc (roundDouble
                (roundDouble (alphaDouble * ((100 : ℤ) : ℚ)) +
                 roundDouble (oneMinusAlphaDouble * (p.w : ℚ)))),
              ratTrunc (roundDouble
                (roundDouble (alphaDouble * ((100 : ℤ) : ℚ)) +
                 roundDouble (oneMinusAlphaDouble * (p.h : ℚ))))⟩) ∧
    (some (⟨0, 0, 100, 100⟩ : BBox) = none →
      (TrackerPipeline.process_frame
        (⟨.TRACK, none, some [[0]], (0, 0), some ⟨0, 0, 100, 100⟩, none, 0,
          some ⟨0, 0, 100, 100⟩⟩ : TrackerPipeline.State)
        (some ⟨⟨50, 0, 100, 100⟩, none, 1, 10, 8⟩)).2.bbox =
        some ⟨50, 0, 100, 100⟩ ∧
      (TrackerPipeline.process_frame
        (⟨.TRACK, none, some [[0]], (0, 0), some ⟨0, 0, 100, 100⟩, none, 0,
          some ⟨0, 0, 100, 100⟩⟩ : TrackerPipeline.State)
        (some ⟨⟨50, 0, 100, 100⟩, none, 1, 10, 8⟩)).1.prev_bbox =
        some ⟨50, 0, 100, 100⟩) ∧
    (TrackerPipeline.process_frame
        (⟨.TRACK, none, some [[0]], (0, 0), some ⟨0, 0, 100, 100⟩, none, 0,
          some ⟨0, 0, 100, 100⟩⟩ : TrackerPipeline.State)
        (some ⟨⟨50, 0, 100, 100⟩, none, 1, 10, 8⟩)).2.corners = none ∧
    (TrackerPipeline.process_frame
        (⟨.TRACK, none, some [[0]], (0, 0), some ⟨0, 0, 100, 100⟩, none, 0,
          some ⟨0, 0, 100, 100⟩⟩ : TrackerPipeline.State)
        (some ⟨⟨50, 0, 100, 100⟩, none, 1, 10, 8⟩)).2.bbox =
      some ⟨30, 0, 100, 100⟩ :=
  claim4_smoothing
    (⟨.TRACK, none, some [[0]], (0, 0), some ⟨0, 0, 100, 100⟩, none, 0,
      some ⟨0, 0, 100, 100⟩⟩ : TrackerPipeline.State)
    (⟨⟨50, 0, 100, 100⟩, none, 1, 10, 8⟩ : MatchSuccess)
    (Or.inr (Or.inl rfl)) (by decide)

/-- C5: for a capacity-2 queue holding at most 2 frames, pushing three
frames f1, f2, f3 in succession with no intervening pop leaves exactly
f2 then f3 buffered, popping yields exactly f2 then f3, and f1 is never
delivered; this holds both for the pipeline put_frame and for the
camera acquisition enqueue step. -/
theorem claim5_drop_oldest {α : Type} (q : FrameQueue α) (f1 f2 f3 : α)
    (hms : q.maxsize = 2) (hlen : q.items.length ≤ 2) :
    (TrackerPipeline.put_frame
      (TrackerPipeline.put_frame (TrackerPipeline.put_frame q f1) f2)
      f3).items = [f2, f3] ∧
    (CameraThread.run_enqueue
      (CameraThread.run_enqueue (CameraThread.run_enqueue q f1) f2)
      f3).items = [f2, f3] ∧
    (TrackerPipeline.put_frame
      (TrackerPipeline.put_frame (TrackerPipeline.put_frame q f1) f2)
      f3).get_nowait = some (f2, ⟨q.maxsize, [f3]⟩) ∧
    (FrameQueue.get_nowait ⟨q.maxsize, [f3]⟩) = some (f3, ⟨q.maxsize, []⟩) ∧
    (f1 ≠ f2 → f1 ≠ f3 →
      f1 ∉ (TrackerPipeline.put_frame
        (TrackerPipeline.put_frame (TrackerPipeline.put_frame q f1) f2)
        f3).items ∧
      f1 ∉ (CameraThread.run_enqueue
        (CameraThread.run_enqueue (CameraThread.run_enqueue q f1) f2)
        f3).items) := by
  obtain ⟨ms, its⟩ := q
  dsimp only at hms hlen ⊢
  subst hms
  rcases its with _ | ⟨a, _ | ⟨b, _ | ⟨c, t⟩⟩⟩
  · refine ⟨?_, ?_, ?_, ?_, ?_⟩ <;>
      simp [TrackerPipeline.put_frame, CameraThread.run_enqueue,
        FrameQueue.put_nowait, FrameQueue.get_nowait, FrameQueue.full] <;>
      intro h12 h13 <;> simp [h12, h13]
  · refine ⟨?_, ?_, ?_, ?_, ?_⟩ <;>
      simp [TrackerPipeline.put_frame, CameraThread.run_enqueue,
        FrameQueue.put_nowait, FrameQueue.get_nowait, FrameQueue.full] <;>
      intro h12 h13 <;> simp [h12, h13]
  · refine ⟨?_, ?_, ?_, ?_, ?_⟩ <;>
      simp [TrackerPipeline.put_frame, CameraThread.run_enqueue,
        FrameQueue.put_nowait, FrameQueue.get_nowait, FrameQueue.full] <;>
      intro h12 h13 <;> simp [h12, h13]
  · simp at hlen

/-- Witness for C5: the empty capacity-2 queue over natural-number
frames with frames 1, 2, 3. -/
theorem claim5_drop_oldest_witness :
    (TrackerPipeline.put_frame
      (TrackerPipeline.put_frame
        (TrackerPipeline.put_frame (⟨2, []⟩ : FrameQueue ℕ) 1) 2)
      3).items = [2, 3] ∧
    (CameraThread.run_enqueue
      (CameraThread.run_enqueue
        (CameraThread.run_enqueue (⟨2, []⟩ : FrameQueue ℕ) 1) 2)
      3).items = [2, 3] ∧
    (TrackerPipeline.put_frame
      (TrackerPipeline.put_frame
        (TrackerPipeline.put_frame (⟨2, []⟩ : FrameQueue ℕ) 1) 2)
      3).get_nowait = some (2, ⟨(⟨2, []⟩ : FrameQueue ℕ).maxsize, [3]⟩) ∧
    (FrameQueue.get_nowait ⟨(⟨2, []⟩ : FrameQueue ℕ).maxsize, [3]⟩) =
      some (3, ⟨(⟨2, []⟩ : FrameQueue ℕ).maxsize, []⟩) ∧
    ((1 : ℕ) ≠ 2 → (1 : ℕ) ≠ 3 →
      1 ∉ (TrackerPipeline.put_frame
        (TrackerPipeline.put_frame
          (TrackerPipeline.put_frame (⟨2, []⟩ : FrameQueue ℕ) 1) 2)
        3).items ∧
      1 ∉ (CameraThread.run_enqueue
        (CameraThread.run_enqueue
          (CameraThread.run_enqueue (⟨2, []⟩ : FrameQueue ℕ) 1) 2)
        3).items) :=
  claim5_drop_oldest (⟨2, []⟩ : FrameQueue ℕ) 1 2 3 rfl (by decide)

/-- C6: on a failed match in SEARCH, TRACK or REACQUIRE while a last
known bounding box is stored and the incremented fail counter stays
below maxFail = 5, the emitted result reuses the stored bbox and
corners at score exactly 0.3, and the state, stored bbox and corners
are unchanged; the stored bbox and previous bbox are cleared (with a
transition to LOST) exactly when the incremented counter reaches
maxFail. -/
theorem claim6_carryover (s : TrackerPipeline.State) (b : BBox)
    (h1 : s.state = .SEARCH ∨ s.state = .TRACK ∨ s.state = .REACQUIRE)
    (h2 : s.current_bbox = some b)
    (h3 : s.fail_count + 1 < maxFailCount) :
    (TrackerPipeline.process_frame s none).2.bbox = some b ∧
    (TrackerPipeline.process_frame s none).2.corners = s.current_corners ∧
    (TrackerPipeline.process_frame s none).2.score = 3 / 10 ∧
    (TrackerPipeline.process_frame s none).2.state = s.state ∧
    (TrackerPipeline.process_frame s none).1.state = s.state ∧
    (TrackerPipeline.process_frame s none).1.current_bbox = some b ∧
    (TrackerPipeline.process_frame s none).1.current_corners = s.current_corners ∧
    (TrackerPipeline.process_frame s none).1.prev_bbox = s.prev_bbox ∧
    (TrackerPipeline.process_frame s none).1.fail_count = s.fail_count + 1 ∧
    (∀ s2 : TrackerPipeline.State,
      (s2.state = .SEARCH ∨ s2.state = .TRACK ∨ s2.state = .REACQUIRE) →
      maxFailCount ≤ s2.fail_count + 1 →
      ((TrackerPipeline.process_frame s2 none).1.current_bbox = none ∧
       (TrackerPipeline.process_frame s2 none).1.prev_bbox = none ∧
       (TrackerPipeline.process_frame s2 none).1.state = .LOST)) ∧
    (∀ (t : SingleTracker.State) (b2 : BBox),
      t.template_descriptors.isSome → t.current_bbox = some b2 →
      t.fail_count + 1 < maxFailCount →
      ((SingleTracker.process_frame t none).2.bbox = some b2 ∧
       (SingleTracker.process_frame t none).2.corners = t.current_corners ∧
       (SingleTracker.process_frame t none).2.score = 3 / 10 ∧
       (SingleTracker.process_frame t none).2.state = t.state ∧
       (SingleTracker.process_frame t none).1.state = t.state ∧
       (SingleTracker.process_frame t none).1.current_bbox = some b2 ∧
       (SingleTracker.process_frame t none).1.current_corners =
         t.current_corners)) := by
  obtain ⟨st, tk, td, sz, cb, cc, fc, pb⟩ := s
  dsimp only at h1 h2 h3 ⊢
  subst h2
  have hmain :
      ∀ st2, (st2 = TrackingState.SEARCH ∨ st2 = TrackingState.TRACK ∨
          st2 = TrackingState.REACQUIRE) →
        TrackerPipeline.process_frame
            ⟨st2, tk, td, sz, some b, cc, fc, pb⟩ none =
          (⟨st2, tk, td, sz, some b, cc, fc + 1, pb⟩,
           ⟨st2, some b, cc, 3 / 10, 0⟩) := by
    intro st2 hst2
    rcases hst2 with h | h | h <;> subst h <;>
      simp [TrackerPipeline.process_frame, effective_match_none, h3]
  refine ⟨?_, ?_, ?_, ?_, ?_, ?_, ?_, ?_, ?_, ?_, ?_⟩
  all_goals try simp [hmain st h1]
  · intro s2 ha hb
    obtain ⟨st2, tk2, td2, sz2, cb2, cc2, fc2, pb2⟩ := s2
    dsimp only at ha hb ⊢
    have hnot : ¬ (fc2 + 1 < maxFailCount) := by omega
    rcases ha with h | h | h <;> subst h <;>
      simp [TrackerPipeline.process_frame, effective_match_none, hnot, hb]
  · intro t b2 hd hcb hfc
    obtain ⟨nm, co, st2, tk2, td2, sz2, cb2, cc2, fc2, pb2⟩ := t
    obtain ⟨d2, hd2⟩ := Option.isSome_iff_exists.mp hd
    dsimp only at hd2 hcb hfc ⊢
    subst hd2
    subst hcb
    simp [SingleTracker.process_frame, hfc]

/-- Witness for C6 at a concrete state: TRACK with stored bbox
(1,2,3,4), stored corners, fail counter 0. -/
theorem claim6_carryover_witness :
    (TrackerPipeline.process_frame
      (⟨.TRACK, none, some [[0]], (0, 0), some ⟨1, 2, 3, 4⟩,
        some [(5, 6)], 0, some ⟨1, 2, 3, 4⟩⟩ : TrackerPipeline.State)
      none).2.bbox = some ⟨1, 2, 3, 4⟩ ∧
    (TrackerPipeline.process_frame
      (⟨.TRACK, none, some [[0]], (0, 0), some ⟨1, 2, 3, 4⟩,
        some [(5, 6)], 0, some ⟨1, 2, 3, 4⟩⟩ : TrackerPipeline.State)
      none).2.score = 3 / 10 := by
  have h := claim6_carryover
    (⟨.TRACK, none, some [[0]], (0, 0), some ⟨1, 2, 3, 4⟩,
      some [(5, 6)], 0, some ⟨1, 2, 3, 4⟩⟩ : TrackerPipeline.State)
    ⟨1, 2, 3, 4⟩ (Or.inr (Or.inl rfl)) rfl (by decide)
  exact ⟨h.1, h.2.2.1⟩

/-- C7: recipe creation fails (returns None) whenever fewer than 10
keypoints are detected in the region image or no descriptors are
computed, and every recipe it does produce has keypoint_count at least
10. -/
theorem claim7_create_recipe (orb_detect : Image → List KP × Option DescMat)
    (name : String) (img : Image) (roi : ℤ × ℤ × ℤ × ℤ)
    (notes created_at : String) :
    (((orb_detect img).2 = none ∨ (orb_detect img).1.length < 10) →
      RecipeManager.create_recipe orb_detect name img roi notes created_at =
        none) ∧
    (∀ r, RecipeManager.create_recipe orb_detect name img roi notes created_at =
        some r → 10 ≤ r.keypoint_count) := by
  constructor
  · rintro (h | h)
    · simp [RecipeManager.create_recipe, h]
    · cases h2 : (orb_detect img).2 <;>
        simp [RecipeManager.create_recipe, h2, h]
  · intro r hr
    unfold RecipeManager.create_recipe at hr
    dsimp only at hr
    split at hr
    · simp at hr
    · split at hr
      · simp at hr
      · rename_i hlen
        cases hr
        simpa using Nat.le_of_not_lt hlen

/-- Witness for C7: a detector yielding 3 keypoints and no descriptors
fails creation. -/
theorem claim7_create_recipe_witness :
    ((((fun _ => ([(0, 0), (1, 1), (2, 2)], none)) :
        Image → List KP × Option DescMat) ⟨10, 10, 0⟩).2 = none ∨
      (((fun _ => ([(0, 0), (1, 1), (2, 2)], none)) :
        Image → List KP × Option DescMat) ⟨10, 10, 0⟩).1.length < 10) ∧
    RecipeManager.create_recipe
      ((fun _ => ([(0, 0), (1, 1), (2, 2)], none)) :
        Image → List KP × Option DescMat)
      "tpl" ⟨10, 10, 0⟩ (0, 0, 10, 10) "" "now" = none :=
  ⟨Or.inl rfl,
   (claim7_create_recipe
      ((fun _ => ([(0, 0), (1, 1), (2, 2)], none)) :
        Image → List KP × Option DescMat)
      "tpl" ⟨10, 10, 0⟩ (0, 0, 10, 10) "" "now").1 (Or.inl rfl)⟩

/-- C1: from TRACK with a fresh fail counter, five consecutive failed
matches leave the tracker in TRACK through the first four failures,
transition it to LOST exactly on the fifth with the stored bounding box
cleared and the emitted result carrying state LOST and bbox None, and
the very next call, whatever its match outcome, auto-advances the state
from LOST to REACQUIRE (again emitting bbox None). -/
theorem claim1_five_failures_to_lost (s : TrackerPipeline.State)
    (h1 : s.state = .TRACK) (h2 : s.fail_count = 0) :
    let s1 := (TrackerPipeline.process_frame s none).1
    let s2 := (TrackerPipeline.process_frame s1 none).1
    let s3 := (TrackerPipeline.process_frame s2 none).1
    let s4 := (TrackerPipeline.process_frame s3 none).1
    let p5 := TrackerPipeline.process_frame s4 none
    s1.state = .TRACK ∧ s2.state = .TRACK ∧ s3.state = .TRACK ∧
    s4.state = .TRACK ∧
    p5.1.state = .LOST ∧ p5.1.current_bbox = none ∧
    p5.2.state = .LOST ∧ p5.2.bbox = none ∧
    (∀ m, (TrackerPipeline.process_frame p5.1 m).1.state = .REACQUIRE ∧
      (TrackerPipeline.process_frame p5.1 m).2.state = .REACQUIRE ∧
      (TrackerPipeline.process_frame p5.1 m).2.bbox = none) := by
  obtain ⟨st, tk, td, sz, cb, cc, fc, pb⟩ := s
  dsimp only at h1 h2 ⊢
  subst h1
  subst h2
  cases cb <;>
    simp [TrackerPipeline.process_frame, effective_match_none, maxFailCount]

/-- Witness for C1 at a concrete tracker: TRACK, descriptors present,
stored bbox (1,1,30,30), fail counter 0. -/
theorem claim1_five_failures_to_lost_witness :
    let s0 : TrackerPipeline.State :=
      ⟨.TRACK, none, some ([] : DescMat), (0, 0), some ⟨1, 1, 30, 30⟩,
        none, 0, some ⟨1, 1, 30, 30⟩⟩
    let s1 := (TrackerPipeline.process_frame s0 none).1
    let s2 := (TrackerPipeline.process_frame s1 none).1
    let s3 := (TrackerPipeline.process_frame s2 none).1
    let s4 := (TrackerPipeline.process_frame s3 none).1
    let p5 := TrackerPipeline.process_frame s4 none
    s1.state = .TRACK ∧ s2.state = .TRACK ∧ s3.state = .TRACK ∧
    s4.state = .TRACK ∧
    p5.1.state = .LOST ∧ p5.1.current_bbox = none ∧
    p5.2.state = .LOST ∧ p5.2.bbox = none ∧
    (∀ m, (TrackerPipeline.process_frame p5.1 m).1.state = .REACQUIRE ∧
      (TrackerPipeline.process_frame p5.1 m).2.state = .REACQUIRE ∧
      (TrackerPipeline.process_frame p5.1 m).2.bbox = none) :=
  claim1_five_failures_to_lost
    (⟨.TRACK, none, some ([] : DescMat), (0, 0), some ⟨1, 1, 30, 30⟩,
      none, 0, some ⟨1, 1, 30, 30⟩⟩ : TrackerPipeline.State) rfl rfl

/-- C10: the fail counter survives the LOST to REACQUIRE auto-advance,
so a tracker that reached LOST with the counter at the threshold cannot
stay in REACQUIRE across a failed match: any LOST state auto-advances
to REACQUIRE keeping its counter, a subsequent failed match immediately
returns to LOST with the bounding box cleared, and only a successful
match moves to TRACK and resets the counter to zero. -/
theorem claim10_lost_reacquire_alternation (s : TrackerPipeline.State)
    (h1 : s.state = .LOST) (h2 : maxFailCount ≤ s.fail_count)
    (h3 : s.template_descriptors.isSome) :
    (∀ m, (TrackerPipeline.process_frame s m).1.state = .REACQUIRE ∧
      (TrackerPipeline.process_frame s m).1.fail_count = s.fail_count) ∧
    ((TrackerPipeline.process_frame
        (TrackerPipeline.process_frame s none).1 none).1.state = .LOST ∧
     (TrackerPipeline.process_frame
        (TrackerPipeline.process_frame s none).1 none).1.current_bbox =
       none) ∧
    (∀ mr, (TrackerPipeline.process_frame
        (TrackerPipeline.process_frame s none).1 (some mr)).1.state =
        .TRACK ∧
      (TrackerPipeline.process_frame
        (TrackerPipeline.process_frame s none).1 (some mr)).1.fail_count =
        0) := by
  obtain ⟨st, tk, td, sz, cb, cc, fc, pb⟩ := s
  obtain ⟨d, hd⟩ := Option.isSome_iff_exists.mp h3
  dsimp only at h1 h2 hd ⊢
  subst h1
  subst hd
  simp only [maxFailCount] at h2
  have hn1 : ¬ (fc + 1 < maxFailCount) := by simp only [maxFailCount]; omega
  have hn2 : maxFailCount ≤ fc + 1 := by simp only [maxFailCount]; omega
  refine ⟨?_, ?_, ?_⟩
  · intro m
    simp [TrackerPipeline.process_frame]
  · simp [TrackerPipeline.process_frame, effective_match_none, hn1, hn2]
  · intro mr
    simp [TrackerPipeline.process_frame, TrackerPipeline.effective_match,
      hn1, hn2]

/-- Witness for C10 at a concrete tracker: LOST with fail counter 5 and
descriptors present. -/
theorem claim10_lost_reacquire_alternation_witness :
    let s0 : TrackerPipeline.State :=
      ⟨.LOST, none, some ([] : DescMat), (0, 0), none, none, 5, none⟩
    (∀ m, (TrackerPipeline.process_frame s0 m).1.state = .REACQUIRE ∧
      (TrackerPipeline.process_frame s0 m).1.fail_count = s0.fail_count) ∧
    ((TrackerPipeline.process_frame
        (TrackerPipeline.process_frame s0 none).1 none).1.state = .LOST ∧
     (TrackerPipeline.process_frame
        (TrackerPipeline.process_frame s0 none).1 none).1.current_bbox =
       none) ∧
    (∀ mr, (TrackerPipeline.process_frame
        (TrackerPipeline.process_frame s0 none).1 (some mr)).1.state =
        .TRACK ∧
      (TrackerPipeline.process_frame
        (TrackerPipeline.process_frame s0 none).1 (some mr)).1.fail_count =
        0) :=
  claim10_lost_reacquire_alternation
    (⟨.LOST, none, some ([] : DescMat), (0, 0), none, none, 5, none⟩ :
      TrackerPipeline.State) rfl (by decide) rfl

/-- Counterexample to C3: the pipeline force_reacquire leaves the
stored corners in place rather than clearing them, and the coordinator
forceReacquireAll (reset on each tracker) leaves the tracker in SEARCH,
not REACQUIRE. -/
theorem claim3_counterexample :
    (TrackerPipeline.force_reacquire
      (⟨.TRACK, none, some ([] : DescMat), (0, 0), some ⟨1, 2, 3, 4⟩,
        some [((1 : ℤ), (2 : ℤ))], 2, some ⟨1, 2, 3, 4⟩⟩ :
        TrackerPipeline.State)).current_corners =
      some [((1 : ℤ), (2 : ℤ))] ∧
    (some [((1 : ℤ), (2 : ℤ))] : Option Corners) ≠ none ∧
    (SingleTracker.reset
      (⟨"a", (0, 255, 0), .TRACK, none, some ([] : DescMat), (0, 0),
        some ⟨1, 2, 3, 4⟩, some [((1 : ℤ), (2 : ℤ))], 2,
        some ⟨1, 2, 3, 4⟩⟩ : SingleTracker.State)).state = .SEARCH ∧
    TrackingState.SEARCH ≠ TrackingState.REACQUIRE := by decide

/-- C3 as amended: the pipeline force_reacquire sets the state to
REACQUIRE with the fail counter zero and the stored and previous
bounding boxes cleared, but leaves the stored corners unchanged; the
coordinator forceReacquireAll resets every owned tracker to SEARCH
(not REACQUIRE) with the fail counter zero and bbox, corners and
previous bbox all cleared; neither touches the extracted template
features. -/
theorem claim3_force_reacquire_amended (s : TrackerPipeline.State)
    (t : SingleTracker.State) (ts : List SingleTracker.State) :
    (TrackerPipeline.force_reacquire s).state = .REACQUIRE ∧
    (TrackerPipeline.force_reacquire s).fail_count = 0 ∧
    (TrackerPipeline.force_reacquire s).current_bbox = none ∧
    (TrackerPipeline.force_reacquire s).prev_bbox = none ∧
    (TrackerPipeline.force_reacquire s).current_corners =
      s.current_corners ∧
    (TrackerPipeline.force_reacquire s).template_keypoints =
      s.template_keypoints ∧
    (TrackerPipeline.force_reacquire s).template_descriptors =
      s.template_descriptors ∧
    (TrackerPipeline.force_reacquire s).template_size = s.template_size ∧
    (SingleTracker.reset t).state = .SEARCH ∧
    (SingleTracker.reset t).fail_count = 0 ∧
    (SingleTracker.reset t).current_bbox = none ∧
    (SingleTracker.reset t).current_corners = none ∧
    (SingleTracker.reset t).prev_bbox = none ∧
    (SingleTracker.reset t).template_keypoints = t.template_keypoints ∧
    (SingleTracker.reset t).template_descriptors =
      t.template_descriptors ∧
    (SingleTracker.reset t).template_size = t.template_size ∧
    (MultiTrackerPipeline.force_reacquire ts).length = ts.length ∧
    (∀ i : ℕ, (MultiTrackerPipeline.force_reacquire ts)[i]? =
      ts[i]?.map SingleTracker.reset) := by
  refine ⟨rfl, rfl, rfl, rfl, rfl, rfl, rfl, rfl, rfl, rfl, rfl, rfl, rfl,
    rfl, rfl, rfl, ?_, ?_⟩
  · simp [MultiTrackerPipeline.force_reacquire]
  · intro i
    simp [MultiTrackerPipeline.force_reacquire, List.getElem?_map]

/-- Helper: SingleTracker.reset is idempotent. -/
lemma reset_idem (t : SingleTracker.State) :
    SingleTracker.reset (SingleTracker.reset t) = SingleTracker.reset t := rfl

/-- Counterexample to C9: for a coordinator-owned tracker,
forceReacquireAll leaves the state at SEARCH, not REACQUIRE as the
claim asserts of every tracker. -/
theorem claim9_counterexample :
    (MultiTrackerPipeline.force_reacquire
      [(⟨"a", (0, 255, 0), .TRACK, none, some ([] : DescMat), (0, 0),
        some ⟨1, 2, 3, 4⟩, none, 3, none⟩ : SingleTracker.State)])[0]? =
      some (⟨"a", (0, 255, 0), .SEARCH, none, some ([] : DescMat), (0, 0),
        none, none, 0, none⟩ : SingleTracker.State) ∧
    TrackingState.SEARCH ≠ TrackingState.REACQUIRE := by decide

/-- C9 as amended: forcing reacquisition twice yields exactly the same
tracker state as forcing it once, with the fail counter zero, for the
pipeline force_reacquire, for a single coordinator tracker reset, and
for the coordinator forceReacquireAll; the resulting state is REACQUIRE
for the pipeline but SEARCH for coordinator-owned trackers. -/
theorem claim9_force_reacquire_idempotent (s : TrackerPipeline.State)
    (t : SingleTracker.State) (ts : List SingleTracker.State) :
    TrackerPipeline.force_reacquire (TrackerPipeline.force_reacquire s) =
      TrackerPipeline.force_reacquire s ∧
    (TrackerPipeline.force_reacquire s).state = .REACQUIRE ∧
    (TrackerPipeline.force_reacquire s).fail_count = 0 ∧
    SingleTracker.reset (SingleTracker.reset t) = SingleTracker.reset t ∧
    (SingleTracker.reset t).state = .SEARCH ∧
    (SingleTracker.reset t).fail_count = 0 ∧
    MultiTrackerPipeline.force_reacquire
        (MultiTrackerPipeline.force_reacquire ts) =
      MultiTrackerPipeline.force_reacquire ts := by
  refine ⟨rfl, rfl, rfl, rfl, rfl, rfl, ?_⟩
  simp [MultiTrackerPipeline.force_reacquire, List.map_map,
    Function.comp_def, reset_idem]

/-- Counterexample to C2: with identical tracking fields (state LOST,
descriptors present, fail counter 5, nothing stored) and the same match
outcome on the same frame, the single-template pipeline emits state
REACQUIRE (auto-advance) while the coordinator-owned tracker emits
state LOST: the two per-frame results differ. -/
theorem claim2_counterexample :
    (TrackerPipeline.process_frame
      (⟨.LOST, none, some ([] : DescMat), (0, 0), none, none, 5, none⟩ :
        TrackerPipeline.State) none).2.state = .REACQUIRE ∧
    (SingleTracker.process_frame
      (⟨"a", (0, 255, 0), .LOST, none, some ([] : DescMat), (0, 0), none,
        none, 5, none⟩ : SingleTracker.State) none).2.state = .LOST ∧
    TrackingState.REACQUIRE ≠ TrackingState.LOST := by decide

/-- C2 as amended: in states SEARCH, TRACK and REACQUIRE, with template
descriptors present and the same match outcome for the same frame, the
pipeline step and a coordinator tracker step agree on every emitted
result field (state, bbox, corners, score, match count) and on every
updated tracking field; the two implementations diverge outside this
fragment: in LOST (the pipeline auto-advances to REACQUIRE without
matching, the coordinator tracker keeps matching and has no
auto-advance), in IDLE (inert pipeline versus matching tracker), when
template descriptors are absent (the pipeline counts a failure, the
tracker returns untouched), and in the matching routine itself (only
the pipeline falls back to the degraded estimate when the homography
fails, inliers are below 6 or template keypoints are absent; the
coordinator tracker fails those cases outright). -/
theorem claim2_single_multi_agreement (s : TrackerPipeline.State)
    (t : SingleTracker.State) (m : Option MatchSuccess)
    (hst : t.state = s.state)
    (htd : t.template_descriptors = s.template_descriptors)
    (hds : s.template_descriptors.isSome)
    (hcb : t.current_bbox = s.current_bbox)
    (hcc : t.current_corners = s.current_corners)
    (hfc : t.fail_count = s.fail_count)
    (hpb : t.prev_bbox = s.prev_bbox)
    (hactive : s.state = .SEARCH ∨ s.state = .TRACK ∨
      s.state = .REACQUIRE) :
    (SingleTracker.process_frame t m).2.state =
      (TrackerPipeline.process_frame s m).2.state ∧
    (SingleTracker.process_frame t m).2.bbox =
      (TrackerPipeline.process_frame s m).2.bbox ∧
    (SingleTracker.process_frame t m).2.corners =
      (TrackerPipeline.process_frame s m).2.corners ∧
    (SingleTracker.process_frame t m).2.score =
      (TrackerPipeline.process_frame s m).2.score ∧
    (SingleTracker.process_frame t m).2.match_count =
      (TrackerPipeline.process_frame s m).2.match_count ∧
    (SingleTracker.process_frame t m).1.state =
      (TrackerPipeline.process_frame s m).1.state ∧
    (SingleTracker.process_frame t m).1.current_bbox =
      (TrackerPipeline.process_frame s m).1.current_bbox ∧
    (SingleTracker.process_frame t m).1.current_corners =
      (TrackerPipeline.process_frame s m).1.current_corners ∧
    (SingleTracker.process_frame t m).1.fail_count =
      (TrackerPipeline.process_frame s m).1.fail_count ∧
    (SingleTracker.process_frame t m).1.prev_bbox =
      (TrackerPipeline.process_frame s m).1.prev_bbox := by
  obtain ⟨st, tk, td, sz, cb, cc, fc, pb⟩ := s
  obtain ⟨nm, co, st2, tk2, td2, sz2, cb2, cc2, fc2, pb2⟩ := t
  dsimp only at hst htd hds hcb hcc hfc hpb hactive ⊢
  subst hst
  subst htd
  subst hcb
  subst hcc
  subst hfc
  subst hpb
  obtain ⟨d, hd⟩ := Option.isSome_iff_exists.mp hds
  subst hd
  rcases hactive with h | h | h <;> subst h <;> cases m <;>
    simp only [SingleTracker.process_frame, TrackerPipeline.process_frame,
      TrackerPipeline.effective_match] <;>
    split_ifs <;> simp_all

/-- Witness for the amended C2 at a concrete pair of trackers in TRACK
with matching stored fields, descriptors present and a failed match. -/
theorem claim2_single_multi_agreement_witness :
    (SingleTracker.process_frame
      (⟨"a", (0, 255, 0), .TRACK, none, some ([] : DescMat), (0, 0),
        some ⟨1, 2, 3, 4⟩, none, 1, some ⟨1, 2, 3, 4⟩⟩ :
        SingleTracker.State) none).2.state =
      (TrackerPipeline.process_frame
        (⟨.TRACK, none, some ([] : DescMat), (0, 0), some ⟨1, 2, 3, 4⟩,
          none, 1, some ⟨1, 2, 3, 4⟩⟩ : TrackerPipeline.State)
        none).2.state ∧
    (SingleTracker.process_frame
      (⟨"a", (0, 255, 0), .TRACK, none, some ([] : DescMat), (0, 0),
        some ⟨1, 2, 3, 4⟩, none, 1, some ⟨1, 2, 3, 4⟩⟩ :
        SingleTracker.State) none).2.bbox =
      (TrackerPipeline.process_frame
        (⟨.TRACK, none, some ([] : DescMat), (0, 0), some ⟨1, 2, 3, 4⟩,
          none, 1, some ⟨1, 2, 3, 4⟩⟩ : TrackerPipeline.State)
        none).2.bbox ∧
    (SingleTracker.process_frame
      (⟨"a", (0, 255, 0), .TRACK, none, some ([] : DescMat), (0, 0),
        some ⟨1, 2, 3, 4⟩, none, 1, some ⟨1, 2, 3, 4⟩⟩ :
        SingleTracker.State) none).2.corners =
      (TrackerPipeline.process_frame
        (⟨.TRACK, none, some ([] : DescMat), (0, 0), some ⟨1, 2, 3, 4⟩,
          none, 1, some ⟨1, 2, 3, 4⟩⟩ : TrackerPipeline.State)
        none).2.corners ∧
    (SingleTracker.process_frame
      (⟨"a", (0, 255, 0), .TRACK, none, some ([] : DescMat), (0, 0),
        some ⟨1, 2, 3, 4⟩, none, 1, some ⟨1, 2, 3, 4⟩⟩ :
        SingleTracker.State) none).2.score =
      (TrackerPipeline.process_frame
        (⟨.TRACK, none, some ([] : DescMat), (0, 0), some ⟨1, 2, 3, 4⟩,
          none, 1, some ⟨1, 2, 3, 4⟩⟩ : TrackerPipeline.State)
        none).2.score ∧
    (SingleTracker.process_frame
      (⟨"a", (0, 255, 0), .TRACK, none, some ([] : DescMat), (0, 0),
        some ⟨1, 2, 3, 4⟩, none, 1, some ⟨1, 2, 3, 4⟩⟩ :
        SingleTracker.State) none).2.match_count =
      (TrackerPipeline.process_frame
        (⟨.TRACK, none, some ([] : DescMat), (0, 0), some ⟨1, 2, 3, 4⟩,
          none, 1, some ⟨1, 2, 3, 4⟩⟩ : TrackerPipeline.State)
        none).2.match_count ∧
    (SingleTracker.process_frame
      (⟨"a", (0, 255, 0), .TRACK, none, some ([] : DescMat), (0, 0),
        some ⟨1, 2, 3, 4⟩, none, 1, some ⟨1, 2, 3, 4⟩⟩ :
        SingleTracker.State) none).1.state =
      (TrackerPipeline.process_frame
        (⟨.TRACK, none, some ([] : DescMat), (0, 0), some ⟨1, 2, 3, 4⟩,
          none, 1, some ⟨1, 2, 3, 4⟩⟩ : TrackerPipeline.State)
        none).1.state ∧
    (SingleTracker.process_frame
      (⟨"a", (0, 255, 0), .TRACK, none, some ([] : DescMat), (0, 0),
        some ⟨1, 2, 3, 4⟩, none, 1, some ⟨1, 2, 3, 4⟩⟩ :
        SingleTracker.State) none).1.current_bbox =
      (TrackerPipeline.process_frame
        (⟨.TRACK, none, some ([] : DescMat), (0, 0), some ⟨1, 2, 3, 4⟩,
          none, 1, some ⟨1, 2, 3, 4⟩⟩ : TrackerPipeline.State)
        none).1.current_bbox ∧
    (SingleTracker.process_frame
      (⟨"a", (0, 255, 0), .TRACK, none, some ([] : DescMat), (0, 0),
        some ⟨1, 2, 3, 4⟩, none, 1, some ⟨1, 2, 3, 4⟩⟩ :
        SingleTracker.State) none).1.current_corners =
      (TrackerPipeline.process_frame
        (⟨.TRACK, none, some ([] : DescMat), (0, 0), some ⟨1, 2, 3, 4⟩,
          none, 1, some ⟨1, 2, 3, 4⟩⟩ : TrackerPipeline.State)
        none).1.current_corners ∧
    (SingleTracker.process_frame
      (⟨"a", (0, 255, 0), .TRACK, none, some ([] : DescMat), (0, 0),
        some ⟨1, 2, 3, 4⟩, none, 1, some ⟨1, 2, 3, 4⟩⟩ :
        SingleTracker.State) none).1.fail_count =
      (TrackerPipeline.process_frame
        (⟨.TRACK, none, some ([] : DescMat), (0, 0), some ⟨1, 2, 3, 4⟩,
          none, 1, some ⟨1, 2, 3, 4⟩⟩ : TrackerPipeline.State)
        none).1.fail_count ∧
    (SingleTracker.process_frame
      (⟨"a", (0, 255, 0), .TRACK, none, some ([] : DescMat), (0, 0),
        some ⟨1, 2, 3, 4⟩, none, 1, some ⟨1, 2, 3, 4⟩⟩ :
        SingleTracker.State) none).1.prev_bbox =
      (TrackerPipeline.process_frame
        (⟨.TRACK, none, some ([] : DescMat), (0, 0), some ⟨1, 2, 3, 4⟩,
          none, 1, some ⟨1, 2, 3, 4⟩⟩ : TrackerPipeline.State)
        none).1.prev_bbox :=
  claim2_single_multi_agreement
    (⟨.TRACK, none, some ([] : DescMat), (0, 0), some ⟨1, 2, 3, 4⟩,
      none, 1, some ⟨1, 2, 3, 4⟩⟩ : TrackerPipeline.State)
    (⟨"a", (0, 255, 0), .TRACK, none, some ([] : DescMat), (0, 0),
      some ⟨1, 2, 3, 4⟩, none, 1, some ⟨1, 2, 3, 4⟩⟩ :
      SingleTracker.State)
    none rfl rfl (by decide) rfl rfl rfl rfl (Or.inr (Or.inl rfl))

/-- Helper: the tracker list built by set_recipes has one tracker per
resolvable name, independently of the enumeration start index. -/
lemma length_set_recipes_from
    (orb_detect : Image → List KP × Option DescMat)
    (resolver : String → Option Recipe) (names : List String) :
    ∀ i : ℕ, (MultiTrackerPipeline.set_recipes_from orb_detect resolver
      i names).length = (names.filterMap resolver).length := by
  induction names with
  | nil => intro i; rfl
  | cons nm rest ih =>
      intro i
      cases h : resolver nm <;>
        simp [MultiTrackerPipeline.set_recipes_from, h,
          List.filterMap_cons, ih]

/-- C8: a coordinator built from a name list owns one tracker per
resolvable name; processing one frame produces exactly one result per
owned tracker, in registration order, each obtained by running that
tracker on the very same frame, and the emitted event pairs that frame
with the complete result list. -/
theorem claim8_coordinator_fanout
    (orb_detect : Image → List KP × Option DescMat)
    (resolver : String → Option Recipe)
    (oracle : Image → SingleTracker.State → Option MatchSuccess)
    (names : List String) (frame : Image) :
    let ts := MultiTrackerPipeline.set_recipes orb_detect resolver names
    let out := MultiTrackerPipeline.process_frame oracle ts frame
    out.2.2.length = ts.length ∧
    ts.length = (names.filterMap resolver).length ∧
    (∀ i : ℕ, out.2.2[i]? =
      ts[i]?.map fun t =>
        (SingleTracker.process_frame t (oracle frame t)).2) ∧
    (∀ i : ℕ, out.1[i]? =
      ts[i]?.map fun t =>
        (SingleTracker.process_frame t (oracle frame t)).1) ∧
    out.2.1 = frame := by
  refine ⟨?_, ?_, ?_, ?_, rfl⟩
  · simp [MultiTrackerPipeline.process_frame]
  · exact length_set_recipes_from orb_detect resolver names 0
  · intro i
    simp [MultiTrackerPipeline.process_frame, List.getElem?_map,
      Option.map_map, Function.comp_def]
  · intro i
    simp [MultiTrackerPipeline.process_frame, List.getElem?_map,
      Option.map_map, Function.comp_def]
